import Mathlib

/-!
# PDx — verification of the PDF analysis core (`src/lib.rs`)

A shallow embedding of the `PdfAnalyzer` component of PDx.  PDF objects are
modelled by the inductive `PdfObject` (mirroring `lopdf::Object`), a loaded
document by `Document` (mirroring the fields of `lopdf::Document` that
`lib.rs` uses: `version`, `trailer`, and the `objects` B-tree map, which
iterates in ascending `ObjectId` order).  Byte strings are `List Nat`
(byte values); the SHA-256/Base64 digest pipeline used by `hash_object`
and `calculate_document_hash` is an explicit function parameter
`hash : List Nat → List Nat`, standing for `BASE64.encode ∘ Sha256`
(collision resistance appears as an `Function.Injective hash` hypothesis
where a claim needs it).  Timestamps (`Utc::now()`) are passed in as an
explicit `now : Nat` parameter.
-/

namespace PDx

/-- `(u32, u16)` object number / generation pair, `lopdf::ObjectId`. -/
abbrev ObjectId := Nat × Nat

/-- Mirror of `lopdf::Object`: the tagged union of PDF values.  Dictionary
entries are keyed by name bytes.  `real` carries an integer payload: no
claim depends on real-number formatting, so the `f32` payload is modelled
by its printed integer part. -/
inductive PdfObject where
  | null : PdfObject
  | boolean (b : Bool) : PdfObject
  | integer (i : Int) : PdfObject
  | real (r : Int) : PdfObject
  | string (s : List Nat) : PdfObject
  | name (n : List Nat) : PdfObject
  | array (xs : List PdfObject) : PdfObject
  | dictionary (d : List (List Nat × PdfObject)) : PdfObject
  | stream (d : List (List Nat × PdfObject)) (raw : List Nat) : PdfObject
  | reference (id : ObjectId) : PdfObject

/-- Decimal digit bytes of a natural number, most significant first
(auxiliary, fuel-structured so it reduces in the kernel). -/
def digitsAux : Nat → Nat → List Nat
  | 0, _ => []
  | fuel + 1, n => if n = 0 then [] else digitsAux fuel (n / 10) ++ [48 + n % 10]

/-- Decimal byte rendering of a natural number. -/
def serializeNat (n : Nat) : List Nat :=
  if n = 0 then [48] else digitsAux (n + 1) n

/-- Decimal byte rendering of an integer (minus sign byte 45 when negative). -/
def serializeInt (i : Int) : List Nat :=
  if i < 0 then 45 :: serializeNat i.natAbs else serializeNat i.natAbs

mutual
/-- Models the PDF-syntax serialization that `lopdf`'s `Object::to_string()`
produces, as consumed by `PdfAnalyzer::hash_object` and
`PdfAnalyzer::calculate_document_hash` (`src/lib.rs` lines 277-291):
`null`/`true`/`false` keywords, decimal numbers, `(...)` strings, `/name`,
`[...]` arrays, `<<...>>` dictionaries, the dictionary plus the *raw*
(undecoded) bytes bracketed by `stream`/`endstream` keywords for stream
objects, and `N G R` for references. -/
def serializeObject : PdfObject → List Nat
  | .null => [110, 117, 108, 108]
  | .boolean true => [116, 114, 117, 101]
  | .boolean false => [102, 97, 108, 115, 101]
  | .integer i => serializeInt i
  | .real r => serializeInt r
  | .string s => 40 :: (s ++ [41])
  | .name n => 47 :: n
  | .array xs => 91 :: (serializeList xs ++ [93])
  | .dictionary d => 60 :: 60 :: (serializeDict d ++ [62, 62])
  | .stream d raw =>
      60 :: 60 :: (serializeDict d ++ [62, 62]
        ++ [115, 116, 114, 101, 97, 109, 10] ++ raw
        ++ [10, 101, 110, 100, 115, 116, 114, 101, 97, 109])
  | .reference id => serializeNat id.1 ++ [32] ++ serializeNat id.2 ++ [32, 82]

/-- Serialization of an array's elements, space separated. -/
def serializeList : List PdfObject → List Nat
  | [] => []
  | x :: xs => serializeObject x ++ 32 :: serializeList xs

/-- Serialization of dictionary entries: `/key value` pairs. -/
def serializeDict : List (List Nat × PdfObject) → List Nat
  | [] => []
  | (k, v) :: rest => 47 :: (k ++ 32 :: (serializeObject v ++ 32 :: serializeDict rest))
end

/-- Mirror of the fields of `lopdf::Document` used by `src/lib.rs`:
`version`, the `trailer` dictionary, and `objects : BTreeMap<ObjectId, Object>`.
The B-tree map is represented by its entry list in ascending-key iteration
order (the invariant `btreeOfList` below (re)establishes). -/
structure Document where
  version : List Nat
  trailer : List (List Nat × PdfObject)
  objects : List (ObjectId × PdfObject)

/-- Name byte constants used by the embedding (ASCII). -/
def kType : List Nat := [84, 121, 112, 101]
/-- ASCII bytes of `Catalog`. -/
def kCatalog : List Nat := [67, 97, 116, 97, 108, 111, 103]
/-- ASCII bytes of `Pages`. -/
def kPages : List Nat := [80, 97, 103, 101, 115]
/-- ASCII bytes of `Page`. -/
def kPage : List Nat := [80, 97, 103, 101]
/-- ASCII bytes of `Kids`. -/
def kKids : List Nat := [75, 105, 100, 115]
/-- ASCII bytes of `Root`. -/
def kRoot : List Nat := [82, 111, 111, 116]
/-- ASCII bytes of `Info`. -/
def kInfo : List Nat := [73, 110, 102, 111]
/-- ASCII bytes of `Encrypt`. -/
def kEncrypt : List Nat := [69, 110, 99, 114, 121, 112, 116]
/-- ASCII bytes of `OpenAction`. -/
def kOpenAction : List Nat := [79, 112, 101, 110, 65, 99, 116, 105, 111, 110]
/-- ASCII bytes of `JavaScript`. -/
def kJavaScript : List Nat := [74, 97, 118, 97, 83, 99, 114, 105, 112, 116]
/-- ASCII bytes of `JS`. -/
def kJS : List Nat := [74, 83]
/-- ASCII bytes of `S`. -/
def kS : List Nat := [83]
/-- ASCII bytes of `AES`. -/
def kAES : List Nat := [65, 69, 83]
/-- ASCII bytes of `Filter`. -/
def kFilter : List Nat := [70, 105, 108, 116, 101, 114]
/-- ASCII bytes of `Standard`. -/
def kStandard : List Nat := [83, 116, 97, 110, 100, 97, 114, 100]
/-- ASCII bytes of `Length`. -/
def kLength : List Nat := [76, 101, 110, 103, 116, 104]
/-- ASCII bytes of `R`. -/
def kR : List Nat := [82]
/-- ASCII bytes of `V`. -/
def kV : List Nat := [86]
/-- ASCII bytes of `Subtype`. -/
def kSubtype : List Nat := [83, 117, 98, 116, 121, 112, 101]
/-- ASCII bytes of `Image`. -/
def kImage : List Nat := [73, 109, 97, 103, 101]
/-- ASCII bytes of `XObject`. -/
def kXObject : List Nat := [88, 79, 98, 106, 101, 99, 116]
/-- ASCII bytes of `Width`. -/
def kWidth : List Nat := [87, 105, 100, 116, 104]
/-- ASCII bytes of `Height`. -/
def kHeight : List Nat := [72, 101, 105, 103, 104, 116]
/-- ASCII bytes of `Contents`. -/
def kContents : List Nat := [67, 111, 110, 116, 101, 110, 116, 115]
/-- ASCII bytes of `Resources`. -/
def kResources : List Nat := [82, 101, 115, 111, 117, 114, 99, 101, 115]
/-- ASCII bytes of `Count`. -/
def kCount : List Nat := [67, 111, 117, 110, 116]
/-- ASCII bytes of `Action`. -/
def kAction : List Nat := [65, 99, 116, 105, 111, 110]

/-- Mirror of `ObjectInfo` (`src/lib.rs` lines 103-109). -/
structure ObjectInfo where
  id : ObjectId
  type_name : List Nat
  size : Nat
  hash : List Nat
deriving DecidableEq

/-- Mirror of `JavaScriptInfo` (`src/lib.rs` lines 111-117). -/
structure JavaScriptInfo where
  location : List Nat
  size : Nat
  hash : List Nat
  suspicious : Bool
deriving DecidableEq

/-- Mirror of `ImageInfo` (`src/lib.rs` lines 119-126). -/
structure ImageInfo where
  id : List Nat
  format : List Nat
  dimensions : Nat × Nat
  size : Nat
  hash : List Nat
deriving DecidableEq

/-- Mirror of `SignatureInfo` (`src/lib.rs` lines 128-134). -/
structure SignatureInfo where
  type_name : List Nat
  issuer : List Nat
  valid : Bool
  timestamp : Nat
deriving DecidableEq

/-- Mirror of `EncryptionInfo` (`src/lib.rs` lines 136-141). -/
structure EncryptionInfo where
  method : List Nat
  strength : Nat
  encrypted_metadata : Bool
deriving DecidableEq

/-- Mirror of `CachedData` (`src/lib.rs` lines 83-88): what the analysis
cache stores per fingerprint — the fingerprint again, a timestamp, and the
metadata map only (notably *not* the full analysis). -/
structure CachedData where
  hash : List Nat
  timestamp : Nat
  metadata : List (List Nat × List Nat)
deriving DecidableEq

/-- Mirror of `PdfAnalysis` (`src/lib.rs` lines 90-101), the aggregate
result of `analyze`.  Note: the struct has *no anomaly-list field*. -/
structure PdfAnalysis where
  version : List Nat
  page_count : Nat
  metadata : List (List Nat × List Nat)
  objects : List ObjectInfo
  javascript : List JavaScriptInfo
  images : List ImageInfo
  signatures : List SignatureInfo
  encryption : Option EncryptionInfo
  timestamp : Nat
deriving DecidableEq

/-- One-step dereference: models `lopdf` resolving a `Reference` through
`Document::objects`; non-references resolve to themselves. -/
def resolveRef (doc : Document) : PdfObject → Option PdfObject
  | .reference id => doc.objects.lookup id
  | o => some o

/-- Dictionary view of an object (`Dictionary` or a `Stream`'s dictionary). -/
def dictOf : PdfObject → Option (List (List Nat × PdfObject))
  | .dictionary d => some d
  | .stream d _ => some d
  | _ => none

/-- Entry `k` of the dictionary stored at `id` in the document's object map
(convenience accessor used to exhibit concrete documents in theorems). -/
def dictAt (doc : Document) (id : ObjectId) (k : List Nat) : Option PdfObject :=
  match doc.objects.lookup id with
  | some o => match dictOf o with
    | some d => d.lookup k
    | none => none
  | none => none

/-- Models `lopdf`'s `Object::type_name` as used at `src/lib.rs` line 221:
the variant name, refined by the `/Type` name for dictionaries and streams. -/
def type_name : PdfObject → List Nat
  | .null => [78, 117, 108, 108]
  | .boolean _ => [66, 111, 111, 108, 101, 97, 110]
  | .integer _ => [73, 110, 116, 101, 103, 101, 114]
  | .real _ => [82, 101, 97, 108]
  | .string _ => [83, 116, 114, 105, 110, 103]
  | .name _ => [78, 97, 109, 101]
  | .array _ => [65, 114, 114, 97, 121]
  | .dictionary d =>
      match d.lookup kType with
      | some (.name n) => n
      | _ => [68, 105, 99, 116, 105, 111, 110, 97, 114, 121]
  | .stream d _ =>
      match d.lookup kType with
      | some (.name n) => n
      | _ => [83, 116, 114, 101, 97, 109]
  | .reference _ => [82, 101, 102, 101, 114, 101, 110, 99, 101]

/-- Models `lopdf`'s `Object::size` as used at `src/lib.rs` line 222: the
serialized size of the object. -/
def objSize (o : PdfObject) : Nat := (serializeObject o).length

/-- `PdfAnalyzer::hash_object` (`src/lib.rs` lines 287-291): the per-object
content hash is the digest of the object's `to_string()` serialization —
for streams this is the dictionary plus raw bytes, not the raw bytes alone. -/
def hash_object (hash : List Nat → List Nat) (o : PdfObject) : List Nat :=
  hash (serializeObject o)

/-- `PdfAnalyzer::calculate_document_hash` (`src/lib.rs` lines 277-285):
one digest over the concatenated serializations of every object in
`document.objects`, in the B-tree map's ascending `ObjectId` iteration
order (`hasher.update` per object before one `finalize`). -/
def calculate_document_hash (hash : List Nat → List Nat) (doc : Document) : List Nat :=
  hash ((doc.objects.map (fun p => serializeObject p.2)).flatten)

/-- `PdfAnalyzer::analyze_objects` (`src/lib.rs` lines 216-229): one
`ObjectInfo` per entry of the object map. -/
def analyze_objects (hash : List Nat → List Nat) (doc : Document) : List ObjectInfo :=
  doc.objects.map (fun p => ⟨p.1, type_name p.2, objSize p.2, hash_object hash p.2⟩)

/-- `PdfAnalyzer::extract_javascript` (`src/lib.rs` lines 293-296): the body
is `// TODO: Implement JavaScript extraction` and returns `None` for every
object. -/
def extract_javascript (_o : PdfObject) : Option JavaScriptInfo :=
  none

/-- `PdfAnalyzer::find_javascript` (`src/lib.rs` lines 231-241): collects
`extract_javascript` over all objects of the map. -/
def find_javascript (doc : Document) : List JavaScriptInfo :=
  doc.objects.filterMap (fun p => extract_javascript p.2)

/-- `PdfAnalyzer::extract_image` (`src/lib.rs` lines 298-301): the body is
`// TODO: Implement image extraction` and returns `None` for every object. -/
def extract_image (_o : PdfObject) : Option ImageInfo :=
  none

/-- `PdfAnalyzer::extract_images` (`src/lib.rs` lines 243-253): collects
`extract_image` over all objects of the map. -/
def extract_images (doc : Document) : List ImageInfo :=
  doc.objects.filterMap (fun p => extract_image p.2)

/-- `PdfAnalyzer::verify_signatures` (`src/lib.rs` lines 255-261): the body
is `// TODO: Implement signature verification`; the empty vector is
returned for every document. -/
def verify_signatures (_doc : Document) : List SignatureInfo :=
  []

/-- Models `lopdf`'s `Document::is_encrypted` as called at `src/lib.rs`
line 264: the trailer has an `/Encrypt` entry. -/
def is_encrypted (doc : Document) : Bool :=
  (doc.trailer.lookup kEncrypt).isSome

/-- `PdfAnalyzer::analyze_encryption` (`src/lib.rs` lines 263-275): `None`
when the document is not encrypted; otherwise (after
`// TODO: Implement encryption analysis`) the fixed placeholder
`EncryptionInfo { method: "AES", strength: 256, encrypted_metadata: true }`,
ignoring whatever the `/Encrypt` dictionary declares. -/
def analyze_encryption (doc : Document) : Option EncryptionInfo :=
  if is_encrypted doc then some ⟨kAES, 256, true⟩ else none

/-- Models retrieval of the trailer's `Info` dictionary
(`self.document.trailer.get_info()` at `src/lib.rs` line 205): the trailer's
`/Info` entry, dereferenced through the object map when it is a reference. -/
def get_info (doc : Document) : Option (List (List Nat × PdfObject)) :=
  match doc.trailer.lookup kInfo with
  | some (.dictionary d) => some d
  | some (.reference id) =>
      match doc.objects.lookup id with
      | some (.dictionary d) => some d
      | _ => none
  | _ => none

/-- The Info dictionary's entry list (empty when there is none). -/
def infoEntries (doc : Document) : List (List Nat × PdfObject) :=
  (get_info doc).getD []

/-- Models `lopdf`'s `Object::as_text_string` as called at `src/lib.rs`
line 207: succeeds exactly on string objects. -/
def as_text_string : PdfObject → Option (List Nat)
  | .string s => some s
  | _ => none

/-- `PdfAnalyzer::extract_metadata` (`src/lib.rs` lines 202-214): every
Info-dictionary entry whose value decodes as a text string, keyed by the
entry's key; non-text values are skipped with no error and no record.  The
Rust `HashMap` is modelled by the entry list (PDF dictionary keys are
unique, so the map and the list carry the same entries). -/
def extract_metadata (doc : Document) : List (List Nat × List Nat) :=
  match get_info doc with
  | some info => info.filterMap (fun kv => (as_text_string kv.2).map (fun t => (kv.1, t)))
  | none => []

/-- Models `lopdf`'s page-tree traversal under `Document::get_pages`
(called at `src/lib.rs` line 180): from a `/Pages` node, recursively
collect the `ObjectId`s of `/Type /Page` leaves through `/Kids`
(fuel-structured on the object count so the traversal terminates). -/
def collectPages (doc : Document) : Nat → ObjectId → List ObjectId
  | 0, _ => []
  | fuel + 1, id =>
    match doc.objects.lookup id with
    | some o =>
      match dictOf o with
      | some d =>
        match d.lookup kType with
        | some (.name n) =>
          if n = kPages then
            match d.lookup kKids with
            | some (.array kids) =>
                (kids.filterMap (fun k => match k with
                  | .reference kid => some kid
                  | _ => none)).flatMap (fun kid => collectPages doc fuel kid)
            | _ => []
          else if n = kPage then [id] else []
        | _ => []
      | none => []
    | none => []

/-- Models `lopdf`'s `Document::get_pages` (`src/lib.rs` line 180): the
page `ObjectId`s reached from the trailer's `/Root` catalog through its
`/Pages` tree. -/
def get_pages (doc : Document) : List ObjectId :=
  match doc.trailer.lookup kRoot with
  | some r =>
    match resolveRef doc r with
    | some o =>
      match dictOf o with
      | some cat =>
        match cat.lookup kPages with
        | some (.reference id) => collectPages doc (doc.objects.length + 1) id
        | _ => []
      | none => []
    | none => []
  | none => []

/-- `HashMap::insert` on the analysis cache (`src/lib.rs` line 193):
replaces any entry with the same key. -/
def cacheInsert (k : List Nat) (v : CachedData) (c : List (List Nat × CachedData)) :
    List (List Nat × CachedData) :=
  c.filter (fun kv => !(kv.1 == k)) ++ [(k, v)]

/-- `PdfAnalyzer::analyze` (`src/lib.rs` lines 177-200): builds the
`PdfAnalysis` aggregate, then *writes* `CachedData` into the cache under
the document fingerprint.  The cache is passed and returned explicitly
(it lives behind an `RwLock` in the Rust, and is never read by `analyze`);
`now` stands for the two `Utc::now()` calls. -/
def analyze (hash : List Nat → List Nat) (doc : Document) (now : Nat)
    (cache : List (List Nat × CachedData)) :
    PdfAnalysis × List (List Nat × CachedData) :=
  let analysis : PdfAnalysis :=
    ⟨doc.version, (get_pages doc).length, extract_metadata doc,
      analyze_objects hash doc, find_javascript doc, extract_images doc,
      verify_signatures doc, analyze_encryption doc, now⟩
  let key := calculate_document_hash hash doc
  (analysis, cacheInsert key ⟨calculate_document_hash hash doc, now, analysis.metadata⟩ cache)

/-- The strict key order of `BTreeMap<ObjectId, Object>`: lexicographic on
(object number, generation). -/
def entryLT (a b : ObjectId × PdfObject) : Prop :=
  a.1.1 < b.1.1 ∨ (a.1.1 = b.1.1 ∧ a.1.2 < b.1.2)

/-- The reflexive key order used to sort B-tree map entries. -/
def entryLE (a b : ObjectId × PdfObject) : Prop :=
  a.1.1 < b.1.1 ∨ (a.1.1 = b.1.1 ∧ a.1.2 ≤ b.1.2)

instance : DecidableRel entryLE := fun a b => by
  unfold entryLE
  exact inferInstance

instance : IsTotal (ObjectId × PdfObject) entryLE := by
  constructor
  intro a b
  unfold entryLE
  omega

instance : IsTrans (ObjectId × PdfObject) entryLE := by
  constructor
  intro a b c hab hbc
  unfold entryLE at hab hbc ⊢
  omega

instance : IsAntisymm (ObjectId × PdfObject) entryLT := by
  constructor
  intro a b hab hba
  exfalso
  unfold entryLT at hab hba
  omega

/-- `BTreeMap` construction: the map the loader ends up with when the
document's objects are inserted in file order is the key-sorted entry list
(keys are unique: one live object per `ObjectId`). -/
def btreeOfList (l : List (ObjectId × PdfObject)) : List (ObjectId × PdfObject) :=
  List.insertionSort entryLE l

mutual
/-- Modelled from the spec: the `Reference` values occurring inside a PDF
value, the edges of the spec's Object Graph (§3, §4.5).  `src/` contains
no object-graph or reachability code, so this and `reachableIds` below are
taken from the spec's words. -/
def refsIn : PdfObject → List ObjectId
  | .array xs => refsInList xs
  | .dictionary d => refsInDict d
  | .stream d _ => refsInDict d
  | .reference id => [id]
  | _ => []

/-- References inside an array's elements. -/
def refsInList : List PdfObject → List ObjectId
  | [] => []
  | x :: xs => refsIn x ++ refsInList xs

/-- References inside a dictionary's values. -/
def refsInDict : List (List Nat × PdfObject) → List ObjectId
  | [] => []
  | kv :: rest => refsIn kv.2 ++ refsInDict rest
end

/-- Modelled from the spec: one breadth-first step list of the Object
Graph traversal (§4.5) — visit the frontier, following references of live
objects; fuel-structured so it terminates. -/
def reachLoop (doc : Document) : Nat → List ObjectId → List ObjectId → List ObjectId
  | 0, visited, _ => visited
  | _ + 1, visited, [] => visited
  | fuel + 1, visited, f :: rest =>
    if f ∈ visited then reachLoop doc fuel visited rest
    else
      match doc.objects.lookup f with
      | some o => reachLoop doc fuel (visited ++ [f]) (rest ++ refsIn o)
      | none => reachLoop doc fuel visited rest

/-- Fuel bound for the traversal: initial frontier plus everything any
live object can ever add. -/
def reachFuel (doc : Document) : Nat :=
  (refsInDict doc.trailer).length
    + (doc.objects.map (fun p => (refsIn p.2).length)).sum
    + doc.objects.length + 1

/-- Modelled from the spec: the reachable-object set (§3 `ObjectGraph`,
§4.5) — the live objects reachable from the trailer's root entries
(`/Root` catalog, `/Info`, …) by following references.  Missing from
`src/`: the code never computes reachability. -/
def reachableIds (doc : Document) : List ObjectId :=
  reachLoop doc (reachFuel doc) [] (refsInDict doc.trailer)

/-- Two id lists denote the same set of objects. -/
def sameIdSet (a b : List ObjectId) : Prop :=
  (∀ x ∈ a, x ∈ b) ∧ (∀ x ∈ b, x ∈ a)

instance (a b : List ObjectId) : Decidable (sameIdSet a b) := by
  unfold sameIdSet
  exact inferInstance

/-- "Some live object's raw content changes" between two documents: an
`ObjectId` live in both maps whose serialized content differs. -/
def rawContentChanged (D D' : Document) : Prop :=
  ∃ p ∈ D.objects, ∃ q ∈ D'.objects,
    p.1 = q.1 ∧ serializeObject p.2 ≠ serializeObject q.2

instance (D D' : Document) : Decidable (rawContentChanged D D') := by
  unfold rawContentChanged
  exact inferInstance

/-- The identity digest: a concrete injective instantiation of the
`hash` parameter, used to evaluate claims on explicit inputs. -/
def idh : List Nat → List Nat := fun l => l

/-- The digest that prepends a sentinel byte: a concrete injective
instantiation of `hash` that separates a digest from its preimage. -/
def cons0 : List Nat → List Nat := fun l => 0 :: l

/-- ASCII bytes of `Producer`. -/
def kProducer : List Nat := [80, 114, 111, 100, 117, 99, 101, 114]
/-- ASCII bytes of `Title`. -/
def kTitle : List Nat := [84, 105, 116, 108, 101]
/-- ASCII bytes of `Im0`. -/
def kIm0 : List Nat := [73, 109, 48]

/-- A one-object document: a catalog referenced by the trailer `/Root`. -/
def docA : Document :=
  ⟨[49, 46, 52], [(kRoot, .reference (1, 0))],
    [((1, 0), .dictionary [(kType, .name kCatalog)])]⟩

/-- `docA` with one extra live object `(5, 0)` that nothing references:
same trailer, same reachable set, no shared object changed. -/
def docB : Document :=
  ⟨[49, 46, 52], [(kRoot, .reference (1, 0))],
    [((1, 0), .dictionary [(kType, .name kCatalog)]), ((5, 0), .integer 7)]⟩

/-- `docA`'s object map under an empty trailer (different reachability,
identical objects). -/
def docATrailer2 : Document :=
  ⟨[49, 46, 52], [], [((1, 0), .dictionary [(kType, .name kCatalog)])]⟩

/-- A one-object document used to separate a digest of contents from a
digest of per-object digests. -/
def docC3 : Document := ⟨[49, 46, 52], [], [((1, 0), .integer 7)]⟩

/-- A document whose catalog `/OpenAction` points at a JavaScript action
object `(2, 0)` (`/S /JavaScript` with inline `/JS` code). -/
def jsDoc : Document :=
  ⟨[49, 46, 52], [(kRoot, .reference (1, 0))],
    [((1, 0), .dictionary [(kType, .name kCatalog), (kOpenAction, .reference (2, 0))]),
     ((2, 0), .dictionary
        [(kType, .name kAction), (kS, .name kJavaScript),
         (kJS, .string [97, 112, 112, 46, 97, 108, 101, 114, 116, 40, 49, 41])])]⟩

/-- A document whose trailer `/Info` points at an Info dictionary holding
one entry whose value is *not* a text string (`/Producer 42`). -/
def doc4 : Document :=
  ⟨[49, 46, 52], [(kRoot, .reference (1, 0)), (kInfo, .reference (3, 0))],
    [((1, 0), .dictionary [(kType, .name kCatalog)]),
     ((3, 0), .dictionary [(kProducer, .integer 42)])]⟩

/-- A document whose trailer declares `/Encrypt` with filter `Standard`,
key length 128 and revision/version 4 — none of which is `AES`/256. -/
def doc5 : Document :=
  ⟨[49, 46, 52],
    [(kRoot, .reference (1, 0)),
     (kEncrypt, .dictionary
        [(kFilter, .name kStandard), (kLength, .integer 128),
         (kR, .integer 4), (kV, .integer 4)])],
    [((1, 0), .dictionary [(kType, .name kCatalog)])]⟩

/-- Entry `k` of the trailer's `/Encrypt` dictionary. -/
def encryptEntry (doc : Document) (k : List Nat) : Option PdfObject :=
  match doc.trailer.lookup kEncrypt with
  | some o => (dictOf o).bind (fun d => d.lookup k)
  | none => none

/-- A cache already holding an entry under `docA`'s fingerprint (identity
digest), with metadata distinct from anything `analyze` computes. -/
def seededCache : List (List Nat × CachedData) :=
  [(calculate_document_hash idh docA, ⟨[0], 99, [(kTitle, [120])]⟩)]

/-- The minimal single-page document of the spec's concrete scenario: one
catalog, one `/Pages` node, one `/Type /Page` leaf whose resources hold one
image XObject stream `(4, 0)` (`/Subtype /Image`, 1×1), plus a content
stream — no JavaScript, no `/Encrypt`. -/
def doc8 : Document :=
  ⟨[49, 46, 52], [(kRoot, .reference (1, 0))],
    [((1, 0), .dictionary [(kType, .name kCatalog), (kPages, .reference (2, 0))]),
     ((2, 0), .dictionary
        [(kType, .name kPages), (kKids, .array [.reference (3, 0)]), (kCount, .integer 1)]),
     ((3, 0), .dictionary
        [(kType, .name kPage),
         (kResources, .dictionary [(kXObject, .dictionary [(kIm0, .reference (4, 0))])]),
         (kContents, .reference (5, 0))]),
     ((4, 0), .stream
        [(kType, .name kXObject), (kSubtype, .name kImage),
         (kWidth, .integer 1), (kHeight, .integer 1), (kLength, .integer 3)]
        [1, 2, 3]),
     ((5, 0), .stream [(kLength, .integer 2)] [66, 84])]⟩

/-! ## Helper lemmas -/

theorem idh_injective : Function.Injective idh := fun _ _ h => h

theorem cons0_injective : Function.Injective cons0 := by
  intro a b h
  injection h

theorem entryLT_of_le_ne {a b : ObjectId × PdfObject}
    (hle : entryLE a b) (hne : a.1 ≠ b.1) : entryLT a b := by
  rcases a with ⟨⟨n1, g1⟩, o1⟩
  rcases b with ⟨⟨n2, g2⟩, o2⟩
  unfold entryLE at hle
  unfold entryLT
  dsimp only at hle hne ⊢
  have hne2 : ¬(n1 = n2 ∧ g1 = g2) := by
    rintro ⟨h1, h2⟩
    subst h1
    subst h2
    exact hne rfl
  omega

theorem sorted_entryLT_of_le {xs : List (ObjectId × PdfObject)}
    (hs : List.Sorted entryLE xs) (hn : (xs.map (fun p => p.1)).Nodup) :
    List.Sorted entryLT xs := by
  have hne : xs.Pairwise (fun a b => a.1 ≠ b.1) := List.pairwise_map.mp hn
  exact (hs.and hne).imp (fun h => entryLT_of_le_ne h.1 h.2)

theorem btreeOfList_perm_eq {l l' : List (ObjectId × PdfObject)}
    (hp : l.Perm l') (hn : (l.map (fun p => p.1)).Nodup) :
    btreeOfList l = btreeOfList l' := by
  have hn' : (l'.map (fun p => p.1)).Nodup := ((hp.map (fun p => p.1)).nodup_iff).mp hn
  have hperm : (btreeOfList l).Perm (btreeOfList l') :=
    (List.perm_insertionSort entryLE l).trans
      (hp.trans (List.perm_insertionSort entryLE l').symm)
  have hn1 : ((btreeOfList l).map (fun p => p.1)).Nodup :=
    (((List.perm_insertionSort entryLE l).map (fun p => p.1)).nodup_iff).mpr hn
  have hn2 : ((btreeOfList l').map (fun p => p.1)).Nodup :=
    (((List.perm_insertionSort entryLE l').map (fun p => p.1)).nodup_iff).mpr hn'
  exact List.eq_of_perm_of_sorted hperm
    (sorted_entryLT_of_le (List.sorted_insertionSort entryLE l) hn1)
    (sorted_entryLT_of_le (List.sorted_insertionSort entryLE l') hn2)

theorem mem_metaFilter {info : List (List Nat × PdfObject)} {k t : List Nat} :
    (k, t) ∈ info.filterMap (fun kv => (as_text_string kv.2).map (fun s => (kv.1, s))) ↔
      ∃ v, (k, v) ∈ info ∧ as_text_string v = some t := by
  simp only [List.mem_filterMap, Option.map_eq_some', Prod.mk.injEq]
  constructor
  · rintro ⟨⟨k1, v⟩, hmem, s, hs, hk, ht⟩
    subst hk
    subst ht
    exact ⟨v, hmem, hs⟩
  · rintro ⟨v, hmem, hs⟩
    exact ⟨(k, v), hmem, t, hs, rfl, rfl⟩

/-! ## Claims -/

/-- C1 (code_bug): the failing input `jsDoc` has a Catalog-level
`/OpenAction` pointing at the JavaScript action object `(2, 0)`
(`/S /JavaScript`), yet `find_javascript` — whose `extract_javascript`
helper is an unimplemented `TODO` returning `None` — produces an *empty*
JavaScript inventory instead of the one entry the claim requires. -/
theorem c1_javascript_inventory_empty_despite_openaction :
    dictAt jsDoc (1, 0) kOpenAction = some (.reference (2, 0)) ∧
    dictAt jsDoc (2, 0) kS = some (.name kJavaScript) ∧
    find_javascript jsDoc = [] ∧
    (analyze idh jsDoc 0 []).1.javascript = [] :=
  ⟨rfl, rfl, rfl, rfl⟩

/-- C2 (counterexample): the claimed equivalence "fingerprint changes iff
some live object's raw content or the reachable-object set changes" is
false: `docB` extends `docA` by one *unreachable* live object, so the
fingerprint (which digests every object in the map) changes although no
object live in both documents changed and the reachable set is identical. -/
theorem c2_counterexample :
    ¬ (∀ hash : List Nat → List Nat, Function.Injective hash →
        ∀ D D' : Document,
          (calculate_document_hash hash D ≠ calculate_document_hash hash D' ↔
            (rawContentChanged D D' ∨
              ¬ sameIdSet (reachableIds D) (reachableIds D')))) := by
  intro h
  rcases (h idh idh_injective docA docB).mp (by decide) with hc | hr
  · exact absurd hc (by decide)
  · exact hr (by decide)

/-- C2 (amended): the whole-document fingerprint is a function of the
loaded object map alone — identical object maps (whatever the trailer,
hence whatever the reachability structure) give identical fingerprints on
every run; reachability does not enter the fingerprint at all. -/
theorem c2_fingerprint_determined_by_object_map
    (hash : List Nat → List Nat) (D D' : Document)
    (h : D.objects = D'.objects) :
    calculate_document_hash hash D = calculate_document_hash hash D' := by
  unfold calculate_document_hash
  rw [h]

/-- C2 witness: concrete instantiation of
`c2_fingerprint_determined_by_object_map` at `docA` and the same object
map under a different trailer. -/
theorem c2_witness :
    calculate_document_hash idh docA = calculate_document_hash idh docATrailer2 :=
  c2_fingerprint_determined_by_object_map idh docA docATrailer2 rfl

/-- C3 (counterexample): the fingerprint is *not* a digest of the live
objects' per-object hashes: with the injective digest `cons0` and the
one-object document `docC3`, the digest of the concatenated per-object
hashes differs from `calculate_document_hash`, which digests the
concatenated serialized contents directly. -/
theorem c3_counterexample :
    ¬ (∀ hash : List Nat → List Nat, Function.Injective hash →
        ∀ D : Document,
          calculate_document_hash hash D =
            hash ((D.objects.map (fun p => hash_object hash p.2)).flatten)) := by
  intro h
  have hx := h cons0 cons0_injective docC3
  exact absurd hx (by decide)

/-- C3 (amended): the whole-document fingerprint is one digest of the live
objects' *serialized contents* concatenated in ascending `ObjectId` order
(the B-tree map's iteration order), and it is therefore independent of the
order in which the file's offsets presented the objects: any permutation
of the loaded entries yields the same fingerprint. -/
theorem c3_fingerprint_digest_in_objectid_order
    (hash : List Nat → List Nat) (v : List Nat)
    (t : List (List Nat × PdfObject)) (l l' : List (ObjectId × PdfObject))
    (hp : l.Perm l') (hn : (l.map (fun p => p.1)).Nodup) :
    calculate_document_hash hash ⟨v, t, btreeOfList l⟩ =
        hash (((btreeOfList l).map (fun p => serializeObject p.2)).flatten) ∧
      calculate_document_hash hash ⟨v, t, btreeOfList l⟩ =
        calculate_document_hash hash ⟨v, t, btreeOfList l'⟩ := by
  refine ⟨rfl, ?_⟩
  rw [btreeOfList_perm_eq hp hn]

/-- C3 witness: concrete instantiation of
`c3_fingerprint_digest_in_objectid_order` on a two-object map presented in
the two possible file orders. -/
theorem c3_witness :
    calculate_document_hash idh
        ⟨[49], [], btreeOfList [((2, 0), .integer 2), ((1, 0), .integer 1)]⟩ =
        idh (((btreeOfList [((2, 0), .integer 2), ((1, 0), .integer 1)]).map
          (fun p => serializeObject p.2)).flatten) ∧
      calculate_document_hash idh
          ⟨[49], [], btreeOfList [((2, 0), .integer 2), ((1, 0), .integer 1)]⟩ =
        calculate_document_hash idh
          ⟨[49], [], btreeOfList [((1, 0), .integer 1), ((2, 0), .integer 2)]⟩ :=
  c3_fingerprint_digest_in_objectid_order idh [49] []
    [((2, 0), .integer 2), ((1, 0), .integer 1)]
    [((1, 0), .integer 1), ((2, 0), .integer 2)]
    (List.Perm.swap _ _ _) (by decide)

/-- C4 (code_bug): the failing input `doc4` carries an Info entry
`/Producer 42` whose value is not a text string; `analyze` recovers from
the failed text decode by silently skipping the entry — the resulting
metadata map is empty and the `PdfAnalysis` struct has no anomaly-list
field at all in which the recovery could have been recorded. -/
theorem c4_nontext_info_entry_dropped_without_anomaly :
    infoEntries doc4 = [(kProducer, .integer 42)] ∧
    as_text_string (.integer 42) = none ∧
    (analyze idh doc4 0 []).1.metadata = [] :=
  ⟨rfl, rfl, rfl⟩

/-- C5 (code_bug): `doc5`'s trailer `/Encrypt` dictionary declares filter
`Standard`, key length 128 and revision/version 4, yet `analyze_encryption`
(a `TODO` stub after the `is_encrypted` test) reports the fixed placeholder
`AES`/256/`true`; the `None`-iff-no-`/Encrypt` half of the claim does hold
(`docA` has no `/Encrypt` and reports `none`). -/
theorem c5_encryption_placeholder_ignores_declared_parameters :
    encryptEntry doc5 kFilter = some (.name kStandard) ∧
    encryptEntry doc5 kLength = some (.integer 128) ∧
    analyze_encryption doc5 = some ⟨kAES, 256, true⟩ ∧
    is_encrypted docA = false ∧
    analyze_encryption docA = none :=
  ⟨rfl, rfl, rfl, rfl, rfl⟩

/-- C6 (counterexample): the per-object hash of a stream is *not* a digest
of the stream's raw bytes alone: two streams with identical (empty) raw
bytes but different dictionaries hash differently, because `hash_object`
digests the whole `to_string()` serialization. -/
theorem c6_counterexample :
    ¬ (∀ hash : List Nat → List Nat, Function.Injective hash →
        ∀ (d1 d2 : List (List Nat × PdfObject)) (raw : List Nat),
          hash_object hash (.stream d1 raw) = hash_object hash (.stream d2 raw)) := by
  intro h
  have hx := h idh idh_injective [] [(kType, .name kXObject)] []
  exact absurd hx (by decide)

/-- C6 (amended): for every object — stream or not — the per-object content
hash is the digest of the object's full serialized form (for streams the
dictionary together with the raw, undecoded bytes): under a collision-free
digest, two objects hash equally exactly when their serializations agree. -/
theorem c6_hash_over_serialized_form
    (hash : List Nat → List Nat) (hinj : Function.Injective hash)
    (o1 o2 : PdfObject) :
    hash_object hash o1 = hash_object hash o2 ↔
      serializeObject o1 = serializeObject o2 := by
  constructor
  · exact fun h => hinj h
  · intro h
    unfold hash_object
    rw [h]

/-- C6 witness: concrete instantiation of `c6_hash_over_serialized_form`
at the identity digest and the null object. -/
theorem c6_witness :
    (hash_object idh .null = hash_object idh .null ↔
      serializeObject .null = serializeObject .null) :=
  c6_hash_over_serialized_form idh idh_injective .null .null

/-- C7 (code_bug): `analyze` never consults the cache — with a cache
already seeded under `docA`'s exact fingerprint key, the returned analysis
is identical to the one computed from an empty cache, i.e. the
classification pass re-runs in full; the cached entry (which can only hold
metadata, not a classifier output) is never returned. -/
theorem c7_cache_never_consulted :
    (seededCache.lookup (calculate_document_hash idh docA)).isSome = true ∧
    (analyze idh docA 3 seededCache).1 = (analyze idh docA 3 []).1 :=
  ⟨rfl, rfl⟩

/-- C8 (code_bug): on the minimal single-page one-image document `doc8`,
`analyze` does report `page_count = 1`, an empty JavaScript inventory and
`encryption = none`, but — although object `(4, 0)` is declared
`/Subtype /Image` — the image inventory is *empty* (the `extract_image`
stub returns `None`), not the single entry the claim requires; and the
result has no anomaly-list field to be empty. -/
theorem c8_minimal_single_page_image_missing_from_inventory :
    (analyze idh doc8 0 []).1.page_count = 1 ∧
    (analyze idh doc8 0 []).1.javascript = [] ∧
    (analyze idh doc8 0 []).1.encryption = none ∧
    dictAt doc8 (4, 0) kSubtype = some (.name kImage) ∧
    (analyze idh doc8 0 []).1.images = [] := by
  refine ⟨by decide, rfl, rfl, rfl, rfl⟩

/-- C9 (confirmed): for every document, digest, timestamp and cache state,
`analyze` returns an empty signatures inventory — `verify_signatures` is a
stub that always yields the empty vector. -/
theorem c9_signatures_inventory_always_empty
    (hash : List Nat → List Nat) (doc : Document) (now : Nat)
    (cache : List (List Nat × CachedData)) :
    (analyze hash doc now cache).1.signatures = [] :=
  rfl

/-- C10 (confirmed): the metadata map contains exactly those Info-dictionary
entries whose values decode as text strings — membership in
`extract_metadata` is equivalent to membership of a text-decodable entry in
the Info dictionary — and a document without an Info dictionary yields an
empty metadata map. -/
theorem c10_metadata_exactly_text_info_entries (doc : Document) :
    (∀ k t, (k, t) ∈ extract_metadata doc ↔
      ∃ v, (k, v) ∈ infoEntries doc ∧ as_text_string v = some t) ∧
    (get_info doc = none → extract_metadata doc = []) := by
  constructor
  · intro k t
    unfold extract_metadata infoEntries
    cases hg : get_info doc with
    | none => simp
    | some info =>
        simpa using mem_metaFilter
  · intro hg
    unfold extract_metadata
    rw [hg]

/-- C10 witness: concrete instantiation of
`c10_metadata_exactly_text_info_entries` — `docA` has no Info dictionary,
and its metadata map is empty. -/
theorem c10_witness : extract_metadata docA = [] :=
  (c10_metadata_exactly_text_info_entries docA).2 rfl

end PDx
